import Mathlib

/-!
# chromedp examples: screenshot and click

A shallow embedding of the two example programs
(screenshot/main.go and click/main.go).

The browser, reached through the chromedp and cdproto libraries, is an
external collaborator.  It is modelled as a record of handlers over an
arbitrary browser state, one handler per protocol command, so that the
theorems quantify over the behaviour of the browser.  The Go side (the
arithmetic, the order of the calls, the early returns, the assignment to
the output slot, the branches of main) is translated from the source.
-/

namespace Chromedp

/-! ## Numbers -/

/-- Go float64, restricted to finite values and represented by the exact
rational value.  Every finite float64 is a rational; the numbers of a
protocol reply are decoded from JSON and are therefore finite. -/
abbrev Float64 := ℚ

/-- Smallest int64. -/
def minInt64 : Int := -(2 ^ 63)

/-- Largest int64. -/
def maxInt64 : Int := 2 ^ 63 - 1

/-- Go math.Ceil on a finite float64: the least integral value not below x.
The result of math.Ceil on a finite float64 is exact (it is representable),
so the rational value of the result is the mathematical ceiling. -/
def mathCeil (x : Float64) : Float64 := ((Int.ceil x : Int) : ℚ)

/-- Go conversion int64(x) of a finite float64: the fraction is discarded
(truncation toward zero).  When the truncated value does not fit int64 the
Go specification leaves the result to the implementation; the value chosen
here is the one produced on amd64 (the smallest int64). -/
def int64OfFloat64 (x : Float64) : Int :=
  let t : Int := if 0 ≤ x then Int.floor x else Int.ceil x
  if minInt64 ≤ t ∧ t ≤ maxInt64 then t else minInt64

/-! ## Protocol data (cdproto) -/

/-- The dom.Rect of cdproto: the content size of a layout-metrics reply. -/
structure Rect where
  x : Float64
  y : Float64
  width : Float64
  height : Float64
deriving DecidableEq

/-- The emulation.OrientationType of cdproto. -/
inductive OrientationType where
  | portraitPrimary
  | portraitSecondary
  | landscapePrimary
  | landscapeSecondary
deriving DecidableEq

/-- The emulation.ScreenOrientation of cdproto. -/
structure ScreenOrientation where
  type : OrientationType
  angle : Int
deriving DecidableEq

/-- The emulation.SetDeviceMetricsOverrideParams of cdproto (the fields the
source sets). -/
structure SetDeviceMetricsOverrideParams where
  width : Int
  height : Int
  deviceScaleFactor : Float64
  mobile : Bool
  screenOrientation : Option ScreenOrientation
deriving DecidableEq

/-- The page.Viewport of cdproto: a clip region. -/
structure Viewport where
  x : Float64
  y : Float64
  width : Float64
  height : Float64
  scale : Float64
deriving DecidableEq

/-- The page.CaptureScreenshotParams of cdproto (the fields the source
sets). -/
structure CaptureScreenshotParams where
  quality : Int
  clip : Option Viewport
deriving DecidableEq

/-- The emulation.SetDeviceMetricsOverride constructor of cdproto. -/
def SetDeviceMetricsOverride (width height : Int) (deviceScaleFactor : Float64)
    (mobile : Bool) : SetDeviceMetricsOverrideParams :=
  { width := width, height := height, deviceScaleFactor := deviceScaleFactor,
    mobile := mobile, screenOrientation := none }

/-- The WithScreenOrientation setter of cdproto. -/
def WithScreenOrientation (p : SetDeviceMetricsOverrideParams)
    (o : ScreenOrientation) : SetDeviceMetricsOverrideParams :=
  { p with screenOrientation := some o }

/-- The page.CaptureScreenshot constructor of cdproto. -/
def CaptureScreenshot : CaptureScreenshotParams :=
  { quality := 0, clip := none }

/-- The WithQuality setter of cdproto. -/
def WithQuality (p : CaptureScreenshotParams) (quality : Int) :
    CaptureScreenshotParams :=
  { p with quality := quality }

/-- The WithClip setter of cdproto. -/
def WithClip (p : CaptureScreenshotParams) (clip : Viewport) :
    CaptureScreenshotParams :=
  { p with clip := some clip }

/-! ## The browser and the Go memory -/

/-- A Go byte slice. -/
abbrev Bytes := List Nat

/-- The browser behind a context: one handler per protocol command, over an
arbitrary browser state.  A handler returns the next state and the reply of
the command.  getLayoutMetrics replies with the content size (the source
discards the two other values of the reply) or an error;
setDeviceMetricsOverride and clearDeviceMetricsOverride reply with an error
or nil; captureScreenshot replies with the pair of a byte slice and an
error or nil, as the Go call does.  clearDeviceMetricsOverride is the
command that reverts an override; the source never issues it. -/
structure Browser (σ ε : Type) where
  getLayoutMetrics : σ → σ × Except ε Rect
  setDeviceMetricsOverride : SetDeviceMetricsOverrideParams → σ → σ × Option ε
  clearDeviceMetricsOverride : σ → σ × Option ε
  captureScreenshot : CaptureScreenshotParams → σ → σ × (Bytes × Option ε)

/-- An address of a Go variable. -/
abbrev Ptr := Nat

/-- The Go variables reachable through the output slots: byte slices and
strings, by address. -/
structure Mem where
  bytes : Ptr → Bytes
  strings : Ptr → String

/-- What an action leaves behind: the browser state, the memory and the
error it returned (none is nil). -/
structure Result (σ ε : Type) where
  state : σ
  mem : Mem
  err : Option ε

/-! ## screenshot/main.go -/

/-- The chromedp.QueryOption values the sources use. -/
inductive QueryOption where
  | NodeVisible
deriving DecidableEq

/-- The chromedp actions the sources build.  An ActionFunc holds a Go closure
over the context. -/
inductive Action (σ ε : Type) where
  | Navigate (urlstr : String)
  | WaitVisible (sel : String)
  | Screenshot (sel : String) (res : Ptr) (opts : List QueryOption)
  | Click (sel : String) (opts : List QueryOption)
  | Value (sel : String) (res : Ptr)
  | ActionFunc (f : Browser σ ε → σ → Mem → Result σ ε)

/-- The chromedp.Tasks type: a sequence of actions. -/
abbrev Tasks (σ ε : Type) := List (Action σ ε)

/-- The function elementScreenshot of screenshot/main.go. -/
def elementScreenshot {σ ε : Type} (urlstr sel : String) (res : Ptr) : Tasks σ ε :=
  [ Action.Navigate urlstr,
    Action.WaitVisible sel,
    Action.Screenshot sel res [QueryOption.NodeVisible] ]

/-- The closure passed to chromedp.ActionFunc in fullScreenshot
(screenshot/main.go, lines 87 to 121). -/
def fullScreenshotAction {σ ε : Type} (quality : Int) (res : Ptr)
    (B : Browser σ ε) (s : σ) (m : Mem) : Result σ ε :=
  -- get layout metrics
  match B.getLayoutMetrics s with
  | (s1, Except.error err) => { state := s1, mem := m, err := some err }
  | (s1, Except.ok contentSize) =>
    let width := int64OfFloat64 (mathCeil contentSize.width)
    let height := int64OfFloat64 (mathCeil contentSize.height)
    -- force viewport emulation
    match B.setDeviceMetricsOverride
        (WithScreenOrientation (SetDeviceMetricsOverride width height 1 false)
          { type := OrientationType.portraitPrimary, angle := 0 }) s1 with
    | (s2, some err) => { state := s2, mem := m, err := some err }
    | (s2, none) =>
      -- capture screenshot
      match B.captureScreenshot
          (WithClip (WithQuality CaptureScreenshot quality)
            { x := contentSize.x, y := contentSize.y,
              width := contentSize.width, height := contentSize.height,
              scale := 1 }) s2 with
      | (s3, (data, err)) =>
        { state := s3,
          mem := { m with bytes := Function.update m.bytes res data },
          err := err }

/-- The function fullScreenshot of screenshot/main.go. -/
def fullScreenshot {σ ε : Type} (urlstr : String) (quality : Int) (res : Ptr) :
    Tasks σ ε :=
  [ Action.Navigate urlstr,
    Action.ActionFunc (fullScreenshotAction quality res) ]

/-- The name of the file written for an element screenshot. -/
def elementFileName : String := "elementScreenshot.png"

/-- The name of the file written for a full screenshot. -/
def fullFileName : String := "fullScreenshot.png"

/-- What a program does that the outside can observe, in order: a call of
chromedp.Run with its tasks, a call of ioutil.WriteFile, a call of
log.Fatal (which logs its argument, a string or an error, and exits with
status 1), a call of log.Printf with one string argument, and the end of
the process inside flag.Parse with the given status. -/
inductive Effect (σ ε : Type) where
  | Run (tasks : Tasks σ ε)
  | WriteFile (filename : String) (data : Bytes) (perm : Nat)
  | Fatal (v : String ⊕ ε)
  | Printf (format : String) (arg : String)
  | Exit (status : Nat)

/-- The library functions main calls: chromedp.Run (which runs the tasks
against the browser behind the context and may write the output slots),
ioutil.WriteFile and filepath.Join. -/
structure Runtime (σ ε : Type) where
  Run : Tasks σ ε → σ → Mem → Result σ ε
  WriteFile : String → Bytes → Nat → Option ε
  Join : String → String → String

/-- The memory of a program whose variables hold their zero values. -/
def zeroMem : Mem := { bytes := fun _ => [], strings := fun _ => "" }

/-- The flags of the screenshot program (lines 19 to 24 of screenshot/main.go)
and the positional arguments, as flag.Parse leaves them when it returns.
The timeout is in nanoseconds. -/
structure ScreenshotFlags where
  headless : Bool
  outputDir : String
  selector : String
  timeout : Nat
  args : List String

/-- The flag of the click program (line 14 of click/main.go), as flag.Parse
leaves it when it returns. -/
structure ClickFlags where
  headless : Bool

/-- The call flag.Arg(i): the i-th positional argument, the empty string when
there is none. -/
def flagArg (args : List String) (i : Nat) : String := args.getD i ""

/-- The function main of screenshot/main.go.  The call flag.Parse() of line 27
either ends the process (the command line has an undefined flag or a bad
value: status 2; it asks for help: status 0) or returns with the flags set;
its outcome is the argument parsed, an exit status or the flags.  The flags
headless and timeout only shape the context, which is the browser state s
here.  The variable buf lives at address 0. -/
def screenshotMain {σ ε : Type} (R : Runtime σ ε) (parsed : Except Nat ScreenshotFlags)
    (s : σ) : List (Effect σ ε) :=
  match parsed with
  | Except.error status => [Effect.Exit status]
  | Except.ok flags =>
    let url := flagArg flags.args 0
    if url = "" then
      [Effect.Fatal (Sum.inl "Missing URL")]
    else
      let buf : Ptr := 0
      if flags.selector ≠ "" then
        -- capture screenshot of an element
        let r := R.Run (elementScreenshot url flags.selector buf) s zeroMem
        match r.err with
        | some err =>
          [Effect.Run (elementScreenshot url flags.selector buf), Effect.Fatal (Sum.inr err)]
        | none =>
          match R.WriteFile (R.Join flags.outputDir elementFileName) (r.mem.bytes buf)
              0o644 with
          | some err =>
            [Effect.Run (elementScreenshot url flags.selector buf),
             Effect.WriteFile (R.Join flags.outputDir elementFileName) (r.mem.bytes buf)
               0o644,
             Effect.Fatal (Sum.inr err)]
          | none =>
            [Effect.Run (elementScreenshot url flags.selector buf),
             Effect.WriteFile (R.Join flags.outputDir elementFileName) (r.mem.bytes buf)
               0o644]
      else
        -- capture entire browser viewport, returning png with quality=90
        let r := R.Run (fullScreenshot url 90 buf) s zeroMem
        match r.err with
        | some err =>
          [Effect.Run (fullScreenshot url 90 buf), Effect.Fatal (Sum.inr err)]
        | none =>
          match R.WriteFile (R.Join flags.outputDir fullFileName) (r.mem.bytes buf)
              0o644 with
          | some err =>
            [Effect.Run (fullScreenshot url 90 buf),
             Effect.WriteFile (R.Join flags.outputDir fullFileName) (r.mem.bytes buf) 0o644,
             Effect.Fatal (Sum.inr err)]
          | none =>
            [Effect.Run (fullScreenshot url 90 buf),
             Effect.WriteFile (R.Join flags.outputDir fullFileName) (r.mem.bytes buf) 0o644]

/-! ## click/main.go -/

/-- The tasks passed to chromedp.Run in click/main.go. -/
def clickTasks {σ ε : Type} (exampleVar : Ptr) : Tasks σ ε :=
  [ Action.Navigate "https://golang.org/pkg/time/",
    Action.WaitVisible "body > footer",
    Action.Click "#pkg-examples > div" [QueryOption.NodeVisible],
    Action.Value "#example_After .play .input textarea" exampleVar ]

/-- The format string of the log.Printf call in click/main.go. -/
def clickFormat : String := "Go\x27s time.After example:\n%s"

/-- The function main of click/main.go.  The call flag.Parse() of line 17
either ends the process with an exit status or returns with the flag set;
its outcome is the argument parsed.  The flag headless only shapes the
context, which is the browser state s here.  The string variable (named
example in the source) lives at address 0. -/
def clickMain {σ ε : Type} (R : Runtime σ ε) (parsed : Except Nat ClickFlags) (s : σ) :
    List (Effect σ ε) :=
  match parsed with
  | Except.error status => [Effect.Exit status]
  | Except.ok _ =>
    let exampleVar : Ptr := 0
    let r := R.Run (clickTasks exampleVar) s zeroMem
    match r.err with
    | some err => [Effect.Run (clickTasks exampleVar), Effect.Fatal (Sum.inr err)]
    | none =>
      [Effect.Run (clickTasks exampleVar),
       Effect.Printf clickFormat (r.mem.strings exampleVar)]

/-! ## Observation: the calls a browser receives -/

/-- A protocol command as received by the browser, with its parameters. -/
inductive Call where
  | getLayoutMetrics
  | setDeviceMetricsOverride (p : SetDeviceMetricsOverrideParams)
  | clearDeviceMetricsOverride
  | captureScreenshot (p : CaptureScreenshotParams)
deriving DecidableEq

/-- The browser B with a log: every command it receives is appended to the
log before B answers it.  The answers are those of B. -/
def Browser.traced {σ ε : Type} (B : Browser σ ε) : Browser (σ × List Call) ε where
  getLayoutMetrics := fun st =>
    ((( B.getLayoutMetrics st.1).1, st.2 ++ [Call.getLayoutMetrics]),
      (B.getLayoutMetrics st.1).2)
  setDeviceMetricsOverride := fun p st =>
    (((B.setDeviceMetricsOverride p st.1).1, st.2 ++ [Call.setDeviceMetricsOverride p]),
      (B.setDeviceMetricsOverride p st.1).2)
  clearDeviceMetricsOverride := fun st =>
    (((B.clearDeviceMetricsOverride st.1).1, st.2 ++ [Call.clearDeviceMetricsOverride]),
      (B.clearDeviceMetricsOverride st.1).2)
  captureScreenshot := fun p st =>
    (((B.captureScreenshot p st.1).1, st.2 ++ [Call.captureScreenshot p]),
      (B.captureScreenshot p st.1).2)

/-- The calls the full-page capture action makes on B, started in browser
state s with memory m. -/
def callsOf {σ ε : Type} (quality : Int) (res : Ptr) (B : Browser σ ε) (s : σ)
    (m : Mem) : List Call :=
  (fullScreenshotAction quality res B.traced (s, []) m).state.2

/-- Whether a call is a device-metrics override. -/
def Call.isOverride : Call → Bool
  | Call.setDeviceMetricsOverride _ => true
  | _ => false

/-- Whether a call is a pixel capture. -/
def Call.isCapture : Call → Bool
  | Call.captureScreenshot _ => true
  | _ => false

/-- Whether an effect is a call of chromedp.Run. -/
def Effect.isRun {σ ε : Type} : Effect σ ε → Bool
  | Effect.Run _ => true
  | _ => false

/-- Whether an effect is a call of ioutil.WriteFile. -/
def Effect.isWriteFile {σ ε : Type} : Effect σ ε → Bool
  | Effect.WriteFile _ _ _ => true
  | _ => false

/-- Whether an effect is a call of log.Printf. -/
def Effect.isPrintf {σ ε : Type} : Effect σ ε → Bool
  | Effect.Printf _ _ => true
  | _ => false

/-! ## A scripted browser, for concrete runs -/

/-- The error kinds of the specification (section 7).  The source only
handles opaque Go error values. -/
inductive Err where
  | NavigationError
  | ElementNotFound
  | AmbiguousSelector
  | InvalidArgument
  | CaptureError
  | CancellationError
deriving DecidableEq

/-- The state of a scripted browser: the replies of the coming layout
queries, the reply of an override, the reply of a pixel capture, and the
emulated device metrics in force (none when there is no override). -/
structure Script where
  sizes : List (Except Err Rect)
  overrideErr : Option Err
  capture : Bytes × Option Err
  metrics : Option SetDeviceMetricsOverrideParams

/-- The scripted browser.  A layout query consumes the next scripted reply;
an override that succeeds installs its parameters as the emulated device
metrics; clearing removes them; a pixel capture changes nothing. -/
def scripted : Browser Script Err where
  getLayoutMetrics := fun s =>
    match s.sizes with
    | [] => (s, Except.error Err.CancellationError)
    | r :: rest => ({ s with sizes := rest }, r)
  setDeviceMetricsOverride := fun p s =>
    match s.overrideErr with
    | some e => (s, some e)
    | none => ({ s with metrics := some p }, none)
  clearDeviceMetricsOverride := fun s => ({ s with metrics := none }, none)
  captureScreenshot := fun _ s => (s, s.capture)

/-! ## Auxiliary definitions for the statements -/

/-- The override request the action builds from a content size (lines 94 to
101 of screenshot/main.go). -/
def overrideRequest (contentSize : Rect) : SetDeviceMetricsOverrideParams :=
  WithScreenOrientation
    (SetDeviceMetricsOverride (int64OfFloat64 (mathCeil contentSize.width))
      (int64OfFloat64 (mathCeil contentSize.height)) 1 false)
    { type := OrientationType.portraitPrimary, angle := 0 }

/-- The capture request the action builds from the quality and a content
size (lines 108 to 116 of screenshot/main.go). -/
def captureRequest (quality : Int) (contentSize : Rect) : CaptureScreenshotParams :=
  WithClip (WithQuality CaptureScreenshot quality)
    { x := contentSize.x, y := contentSize.y,
      width := contentSize.width, height := contentSize.height,
      scale := 1 }

/-! ## Concrete pages -/

/-- The content size of the example of the specification: 800.2 by 600.9. -/
def rect800 : Rect := { x := 0, y := 0, width := 800.2, height := 600.9 }

/-- A browser state whose next layout query replies with rect800 and whose
override and capture succeed. -/
def page800 : Script :=
  { sizes := [Except.ok rect800], overrideErr := none,
    capture := ([137, 80, 78, 71], none), metrics := none }

/-- The content size of the end-to-end scenario: 1024 by 3000. -/
def rect1024 : Rect := { x := 0, y := 0, width := 1024, height := 3000 }

/-- A browser state whose next layout query replies with rect1024 and whose
override and capture succeed. -/
def page1024 : Script :=
  { sizes := [Except.ok rect1024], overrideErr := none,
    capture := ([137, 80, 78, 71], none), metrics := none }

/-- A browser state whose layout query fails. -/
def layoutFails : Script :=
  { sizes := [Except.error Err.NavigationError], overrideErr := none,
    capture := ([137, 80, 78, 71], none), metrics := none }

/-- A browser state whose layout query replies with rect1024 and whose
override fails. -/
def overrideFails : Script :=
  { sizes := [Except.ok rect1024], overrideErr := some Err.InvalidArgument,
    capture := ([137, 80, 78, 71], none), metrics := none }

/-- A browser state whose layout query replies with rect1024, whose override
succeeds and whose pixel capture fails. -/
def captureFails : Script :=
  { sizes := [Except.ok rect1024], overrideErr := none,
    capture := ([], some Err.CaptureError), metrics := none }

/-- A browser state whose content size changes between two layout queries:
first rect800, then rect1024. -/
def twoPages : Script :=
  { sizes := [Except.ok rect800, Except.ok rect1024], overrideErr := none,
    capture := ([137, 80, 78, 71], none), metrics := none }

/-- The browser state twoPages after a first run of the action. -/
def afterFirst : Script :=
  { sizes := [Except.ok rect1024], overrideErr := none,
    capture := ([137, 80, 78, 71], none), metrics := some (overrideRequest rect800) }

/-- A memory whose byte slice at address 0 holds earlier contents. -/
def usedMem : Mem := { bytes := fun _ => [1, 2, 3], strings := fun _ => "" }

/-- A content size of width 0. -/
def rect0 : Rect := { x := 0, y := 0, width := 0, height := 600 }

/-- A browser state whose layout query replies with rect0 and whose override
and capture succeed. -/
def emptyPage : Script :=
  { sizes := [Except.ok rect0], overrideErr := none,
    capture := ([137, 80, 78, 71], none), metrics := none }

/-- The scripted browser with a pixel capture that rejects a clip of
non-positive width or height with CaptureError. -/
def scriptedStrict : Browser Script Err where
  getLayoutMetrics := scripted.getLayoutMetrics
  setDeviceMetricsOverride := scripted.setDeviceMetricsOverride
  clearDeviceMetricsOverride := scripted.clearDeviceMetricsOverride
  captureScreenshot := fun p s =>
    match p.clip with
    | some c =>
      if c.width ≤ 0 ∨ c.height ≤ 0 then (s, ([], some Err.CaptureError))
      else (s, s.capture)
    | none => (s, s.capture)

/-- A runtime whose chromedp.Run stores data and text in the variables at
address 0 and returns the given error, and whose WriteFile succeeds. -/
def stubRuntime (e : Option Err) (data : Bytes) (text : String) : Runtime Script Err where
  Run := fun _ s m =>
    { state := s,
      mem := { bytes := Function.update m.bytes 0 data,
               strings := Function.update m.strings 0 text },
      err := e }
  WriteFile := fun _ _ _ => none
  Join := fun dir file => dir ++ "/" ++ file

/-- The flags after parsing the command line
screenshot -selector #main http://example/ . -/
def elementFlags : ScreenshotFlags :=
  { headless := true, outputDir := ".", selector := "#main",
    timeout := 10000000000, args := ["http://example/"] }

/-- The flags after parsing the command line screenshot http://example/ . -/
def fullFlags : ScreenshotFlags :=
  { headless := true, outputDir := ".", selector := "",
    timeout := 10000000000, args := ["http://example/"] }

/-- The flags after parsing the command line screenshot, without arguments. -/
def noUrlFlags : ScreenshotFlags :=
  { headless := true, outputDir := ".", selector := "",
    timeout := 10000000000, args := [] }

/-- Modelled from the spec: the Capture Encoder of section 4.4, the pixel
capture behind the browser, whose code is not part of the sources.  The
specification says that it fails with CaptureError if the region has
non-positive width or height.  A browser follows the contract, for the
error value captureError, when every capture request whose clip has
non-positive width or height is answered with that error. -/
def CaptureEncoderContract {σ ε : Type} (B : Browser σ ε) (captureError : ε) : Prop :=
  ∀ (p : CaptureScreenshotParams) (c : Viewport) (a : σ),
    p.clip = some c → c.width ≤ 0 ∨ c.height ≤ 0 →
    (B.captureScreenshot p a).2.2 = some captureError

/-- The slot discipline of a program: its effects start with the one call of
chromedp.Run on the tasks; the consuming effect (of the kind isUse) is
present exactly when the run returned no error; and when the run returned an
error the program does nothing but terminate fatally with that error. -/
def ConsumesAfterSuccess {σ ε : Type} (effects : List (Effect σ ε)) (tasks : Tasks σ ε)
    (r : Result σ ε) (use : Effect σ ε) (isUse : Effect σ ε → Bool) : Prop :=
  (effects.filter Effect.isRun).length = 1 ∧
  effects.head? = some (Effect.Run tasks) ∧
  (r.err = none ↔ use ∈ effects) ∧
  (r.err = none ↔ effects.any isUse = true) ∧
  ∀ e, r.err = some e → effects = [Effect.Run tasks, Effect.Fatal (Sum.inr e)]

/-! ## Lemmas -/

theorem int64OfFloat64_mathCeil_of_range (x : Float64)
    (h0 : ((minInt64 : Int) : ℚ) ≤ x) (h1 : x ≤ ((maxInt64 : Int) : ℚ)) :
    int64OfFloat64 (mathCeil x) = Int.ceil x := by
  have hc1 : Int.ceil x ≤ maxInt64 := Int.ceil_le.mpr h1
  have hmin : minInt64 ≤ Int.ceil x := by
    have h : ((minInt64 : Int) : ℚ) ≤ ((Int.ceil x : Int) : ℚ) := le_trans h0 (Int.le_ceil x)
    exact_mod_cast h
  simp only [int64OfFloat64, mathCeil, Int.floor_intCast, Int.ceil_intCast, ite_self]
  rw [if_pos ⟨hmin, hc1⟩]

theorem int64OfFloat64_mathCeil (x : Float64) (h0 : 0 ≤ x)
    (h1 : x ≤ ((maxInt64 : Int) : ℚ)) :
    int64OfFloat64 (mathCeil x) = Int.ceil x := by
  have hc0 : (0 : Int) ≤ Int.ceil x := Int.ceil_nonneg h0
  have hc1 : Int.ceil x ≤ maxInt64 := Int.ceil_le.mpr h1
  have hmin : minInt64 ≤ Int.ceil x := by
    have : minInt64 ≤ 0 := by unfold minInt64; norm_num
    omega
  have hq : (0 : ℚ) ≤ ((Int.ceil x : Int) : ℚ) := by exact_mod_cast hc0
  simp only [int64OfFloat64, mathCeil, hq, if_true, Int.floor_intCast]
  rw [if_pos ⟨hmin, hc1⟩]

theorem action_layout_err {σ ε : Type} (B : Browser σ ε) (quality : Int) (res : Ptr)
    (s s1 : σ) (m : Mem) (e : ε)
    (h1 : B.getLayoutMetrics s = (s1, Except.error e)) :
    fullScreenshotAction quality res B s m = { state := s1, mem := m, err := some e } := by
  simp [fullScreenshotAction, h1]

theorem action_override_err {σ ε : Type} (B : Browser σ ε) (quality : Int) (res : Ptr)
    (s s1 s2 : σ) (m : Mem) (cs : Rect) (e : ε)
    (h1 : B.getLayoutMetrics s = (s1, Except.ok cs))
    (h2 : B.setDeviceMetricsOverride (overrideRequest cs) s1 = (s2, some e)) :
    fullScreenshotAction quality res B s m = { state := s2, mem := m, err := some e } := by
  unfold overrideRequest at h2
  simp [fullScreenshotAction, h1, h2]

theorem action_capture {σ ε : Type} (B : Browser σ ε) (quality : Int) (res : Ptr)
    (s s1 s2 s3 : σ) (m : Mem) (cs : Rect) (data : Bytes) (r : Option ε)
    (h1 : B.getLayoutMetrics s = (s1, Except.ok cs))
    (h2 : B.setDeviceMetricsOverride (overrideRequest cs) s1 = (s2, none))
    (h3 : B.captureScreenshot (captureRequest quality cs) s2 = (s3, (data, r))) :
    fullScreenshotAction quality res B s m =
      { state := s3, mem := { m with bytes := Function.update m.bytes res data },
        err := r } := by
  unfold overrideRequest at h2
  unfold captureRequest at h3
  simp [fullScreenshotAction, h1, h2, h3]

theorem traced_layout_err {σ ε : Type} (B : Browser σ ε) (quality : Int) (res : Ptr)
    (s s1 : σ) (t : List Call) (m : Mem) (e : ε)
    (h1 : B.getLayoutMetrics s = (s1, Except.error e)) :
    fullScreenshotAction quality res B.traced (s, t) m =
      { state := (s1, t ++ [Call.getLayoutMetrics]), mem := m, err := some e } := by
  apply action_layout_err
  simp [Browser.traced, h1]

theorem traced_override_err {σ ε : Type} (B : Browser σ ε) (quality : Int) (res : Ptr)
    (s s1 s2 : σ) (t : List Call) (m : Mem) (cs : Rect) (e : ε)
    (h1 : B.getLayoutMetrics s = (s1, Except.ok cs))
    (h2 : B.setDeviceMetricsOverride (overrideRequest cs) s1 = (s2, some e)) :
    fullScreenshotAction quality res B.traced (s, t) m =
      { state := (s2, t ++ [Call.getLayoutMetrics,
                    Call.setDeviceMetricsOverride (overrideRequest cs)]),
        mem := m, err := some e } := by
  refine action_override_err B.traced quality res (s, t)
    (s1, t ++ [Call.getLayoutMetrics]) _ m cs e ?_ ?_
  · simp [Browser.traced, h1]
  · simp [Browser.traced, h2]

theorem traced_capture {σ ε : Type} (B : Browser σ ε) (quality : Int) (res : Ptr)
    (s s1 s2 s3 : σ) (t : List Call) (m : Mem) (cs : Rect) (data : Bytes) (r : Option ε)
    (h1 : B.getLayoutMetrics s = (s1, Except.ok cs))
    (h2 : B.setDeviceMetricsOverride (overrideRequest cs) s1 = (s2, none))
    (h3 : B.captureScreenshot (captureRequest quality cs) s2 = (s3, (data, r))) :
    fullScreenshotAction quality res B.traced (s, t) m =
      { state := (s3, t ++ [Call.getLayoutMetrics,
                    Call.setDeviceMetricsOverride (overrideRequest cs),
                    Call.captureScreenshot (captureRequest quality cs)]),
        mem := { m with bytes := Function.update m.bytes res data },
        err := r } := by
  refine action_capture B.traced quality res (s, t)
    (s1, t ++ [Call.getLayoutMetrics])
    (s2, t ++ [Call.getLayoutMetrics, Call.setDeviceMetricsOverride (overrideRequest cs)])
    _ m cs data r ?_ ?_ ?_
  · simp [Browser.traced, h1]
  · simp [Browser.traced, h2]
  · simp [Browser.traced, h3]

theorem calls_of_layout_ok {σ ε : Type} (B : Browser σ ε) (quality : Int) (res : Ptr)
    (s s1 : σ) (t : List Call) (m : Mem) (cs : Rect)
    (h1 : B.getLayoutMetrics s = (s1, Except.ok cs)) :
    (fullScreenshotAction quality res B.traced (s, t) m).state.2 =
        t ++ [Call.getLayoutMetrics, Call.setDeviceMetricsOverride (overrideRequest cs)]
    ∨ (fullScreenshotAction quality res B.traced (s, t) m).state.2 =
        t ++ [Call.getLayoutMetrics, Call.setDeviceMetricsOverride (overrideRequest cs),
              Call.captureScreenshot (captureRequest quality cs)] := by
  rcases h2 : B.setDeviceMetricsOverride (overrideRequest cs) s1 with ⟨s2, _ | e⟩
  · rcases h3 : B.captureScreenshot (captureRequest quality cs) s2 with ⟨s3, data, r⟩
    right
    rw [traced_capture B quality res s s1 s2 s3 t m cs data r h1 h2 h3]
  · left
    rw [traced_override_err B quality res s s1 s2 t m cs e h1 h2]

theorem ceil_bounds (x : ℚ) :
    x ≤ ((Int.ceil x : Int) : ℚ) ∧ ((Int.ceil x : Int) : ℚ) < x + 1 ∧
    ∀ n : Int, x = (n : ℚ) → Int.ceil x = n := by
  refine ⟨Int.le_ceil x, Int.ceil_lt_add_one x, ?_⟩
  intro n hn
  rw [hn, Int.ceil_intCast]

theorem scripted_override_sets_metrics (p : SetDeviceMetricsOverrideParams)
    (a b : Script) (h : scripted.setDeviceMetricsOverride p a = (b, none)) :
    b.metrics = some p := by
  cases hoe : a.overrideErr with
  | none => simp [scripted, hoe] at h; rw [← h]
  | some e => simp [scripted, hoe] at h

theorem scripted_capture_keeps_metrics (c : CaptureScreenshotParams) (a : Script) :
    (scripted.captureScreenshot c a).1.metrics = a.metrics := rfl

theorem scriptedStrict_follows_contract :
    CaptureEncoderContract scriptedStrict Err.CaptureError := by
  intro p c a hclip hreg
  simp [scriptedStrict, hclip, hreg]

/-! ## The claims -/

/-- C1: when the layout-metrics query replies with a content size whose width
and height are non-negative and within the int64 range, the action requests
the device-metrics override with the ceilings of the width and the height:
each is an integer not below the input and below the input plus one, and an
integral input is passed unchanged. -/
theorem C1_override_dimensions_are_ceilings {σ ε : Type} (B : Browser σ ε)
    (quality : Int) (res : Ptr) (s s1 : σ) (m : Mem) (cs : Rect)
    (h1 : B.getLayoutMetrics s = (s1, Except.ok cs))
    (hw0 : 0 ≤ cs.width) (hw1 : cs.width ≤ ((maxInt64 : Int) : ℚ))
    (hh0 : 0 ≤ cs.height) (hh1 : cs.height ≤ ((maxInt64 : Int) : ℚ)) :
    ∃ p : SetDeviceMetricsOverrideParams,
      (callsOf quality res B s m)[1]? = some (Call.setDeviceMetricsOverride p) ∧
      (∀ p2, Call.setDeviceMetricsOverride p2 ∈ callsOf quality res B s m → p2 = p) ∧
      p.width = Int.ceil cs.width ∧ p.height = Int.ceil cs.height ∧
      cs.width ≤ (p.width : ℚ) ∧ (p.width : ℚ) < cs.width + 1 ∧
      cs.height ≤ (p.height : ℚ) ∧ (p.height : ℚ) < cs.height + 1 ∧
      (∀ n : Int, cs.width = (n : ℚ) → p.width = n) ∧
      (∀ n : Int, cs.height = (n : ℚ) → p.height = n) := by
  have hw : (overrideRequest cs).width = Int.ceil cs.width :=
    int64OfFloat64_mathCeil cs.width hw0 hw1
  have hh : (overrideRequest cs).height = Int.ceil cs.height :=
    int64OfFloat64_mathCeil cs.height hh0 hh1
  obtain ⟨bw1, bw2, bw3⟩ := ceil_bounds cs.width
  obtain ⟨bh1, bh2, bh3⟩ := ceil_bounds cs.height
  refine ⟨overrideRequest cs, ?_, ?_, hw, hh, ?_, ?_, ?_, ?_, ?_, ?_⟩
  · rcases calls_of_layout_ok B quality res s s1 [] m cs h1 with h | h <;>
      simp [callsOf, h]
  · intro p2 hp2
    rcases calls_of_layout_ok B quality res s s1 [] m cs h1 with h | h <;>
      simpa [callsOf, h] using hp2
  · rw [hw]; exact bw1
  · rw [hw]; exact bw2
  · rw [hh]; exact bh1
  · rw [hh]; exact bh2
  · intro n hn; rw [hw]; exact bw3 n hn
  · intro n hn; rw [hh]; exact bh3 n hn

/-- C1, at the content size 800.2 by 600.9 of the specification: the override
is requested with width 801 and height 601. -/
theorem C1_override_dimensions_are_ceilings_witness :
    (0 : ℚ) ≤ rect800.width ∧ rect800.width ≤ ((maxInt64 : Int) : ℚ) ∧
    (0 : ℚ) ≤ rect800.height ∧ rect800.height ≤ ((maxInt64 : Int) : ℚ) ∧
    Int.ceil rect800.width = 801 ∧ Int.ceil rect800.height = 601 ∧
    ∃ p : SetDeviceMetricsOverrideParams,
      (callsOf 90 0 scripted page800 zeroMem)[1]? = some (Call.setDeviceMetricsOverride p) ∧
      (∀ p2, Call.setDeviceMetricsOverride p2 ∈ callsOf 90 0 scripted page800 zeroMem →
        p2 = p) ∧
      p.width = Int.ceil rect800.width ∧ p.height = Int.ceil rect800.height ∧
      rect800.width ≤ (p.width : ℚ) ∧ (p.width : ℚ) < rect800.width + 1 ∧
      rect800.height ≤ (p.height : ℚ) ∧ (p.height : ℚ) < rect800.height + 1 ∧
      (∀ n : Int, rect800.width = (n : ℚ) → p.width = n) ∧
      (∀ n : Int, rect800.height = (n : ℚ) → p.height = n) :=
  have hw0 : (0 : ℚ) ≤ rect800.width := by norm_num [rect800]
  have hw1 : rect800.width ≤ ((maxInt64 : Int) : ℚ) := by norm_num [rect800, maxInt64]
  have hh0 : (0 : ℚ) ≤ rect800.height := by norm_num [rect800]
  have hh1 : rect800.height ≤ ((maxInt64 : Int) : ℚ) := by norm_num [rect800, maxInt64]
  ⟨hw0, hw1, hh0, hh1,
    by rw [Int.ceil_eq_iff]; norm_num [rect800],
    by rw [Int.ceil_eq_iff]; norm_num [rect800],
    C1_override_dimensions_are_ceilings scripted 90 0 page800
      { page800 with sizes := [] } zeroMem rect800 rfl hw0 hw1 hh0 hh1⟩

/-- C2: whenever the layout-metrics query succeeds, the capture action of the
pipeline built by fullScreenshot, for every url and every quality, requests
the device-metrics override exactly once, with device scale factor 1, mobile
emulation off and the screen orientation portrait-primary at angle 0, and
with the ceilings of the content width and height, for every width and
height within the int64 range. -/
theorem C2_override_requested_once {σ ε : Type} (B : Browser σ ε) (urlstr : String)
    (quality : Int) (res : Ptr) (s s1 : σ) (m : Mem) (cs : Rect)
    (h1 : B.getLayoutMetrics s = (s1, Except.ok cs)) :
    ∃ f p, (fullScreenshot urlstr quality res)[1]? = some (Action.ActionFunc f) ∧
      (f B.traced (s, []) m).state.2.filter Call.isOverride =
        [Call.setDeviceMetricsOverride p] ∧
      p.deviceScaleFactor = 1 ∧
      p.mobile = false ∧
      p.screenOrientation =
        some { type := OrientationType.portraitPrimary, angle := 0 } ∧
      (((minInt64 : Int) : ℚ) ≤ cs.width → cs.width ≤ ((maxInt64 : Int) : ℚ) →
        p.width = Int.ceil cs.width) ∧
      (((minInt64 : Int) : ℚ) ≤ cs.height → cs.height ≤ ((maxInt64 : Int) : ℚ) →
        p.height = Int.ceil cs.height) := by
  refine ⟨fullScreenshotAction quality res, overrideRequest cs, rfl, ?_, rfl, rfl, rfl,
    fun h0 h2 => int64OfFloat64_mathCeil_of_range cs.width h0 h2,
    fun h0 h2 => int64OfFloat64_mathCeil_of_range cs.height h0 h2⟩
  rcases calls_of_layout_ok B quality res s s1 [] m cs h1 with h | h <;>
    simp [h, Call.isOverride]

/-- C2, at the content size 1024 by 3000 of the end-to-end scenario and at the
fractional content size 800.2 by 600.9: one override, with scale 1, mobile
off, portrait-primary at angle 0, and with width and height 1024 by 3000,
respectively 801 by 601. -/
theorem C2_override_requested_once_witness :
    (∃ f p, (fullScreenshot "http://example/" 90 0)[1]? = some (Action.ActionFunc f) ∧
      (f scripted.traced (page1024, []) zeroMem).state.2.filter Call.isOverride =
        [Call.setDeviceMetricsOverride p] ∧
      p.deviceScaleFactor = 1 ∧ p.mobile = false ∧
      p.screenOrientation =
        some { type := OrientationType.portraitPrimary, angle := 0 } ∧
      p.width = 1024 ∧ p.height = 3000) ∧
    (∃ f p, (fullScreenshot "http://example/" 90 0)[1]? = some (Action.ActionFunc f) ∧
      (f scripted.traced (page800, []) zeroMem).state.2.filter Call.isOverride =
        [Call.setDeviceMetricsOverride p] ∧
      p.deviceScaleFactor = 1 ∧ p.mobile = false ∧
      p.screenOrientation =
        some { type := OrientationType.portraitPrimary, angle := 0 } ∧
      p.width = 801 ∧ p.height = 601) := by
  constructor
  · obtain ⟨f, p, hf, hcalls, hscale, hmobile, horient, hw, hh⟩ :=
      C2_override_requested_once scripted "http://example/" 90 0 page1024
        { page1024 with sizes := [] } zeroMem rect1024 rfl
    refine ⟨f, p, hf, hcalls, hscale, hmobile, horient, ?_, ?_⟩
    · rw [hw (by norm_num [rect1024, minInt64]) (by norm_num [rect1024, maxInt64])]
      norm_num [rect1024]
    · rw [hh (by norm_num [rect1024, minInt64]) (by norm_num [rect1024, maxInt64])]
      norm_num [rect1024]
  · obtain ⟨f, p, hf, hcalls, hscale, hmobile, horient, hw, hh⟩ :=
      C2_override_requested_once scripted "http://example/" 90 0 page800
        { page800 with sizes := [] } zeroMem rect800 rfl
    refine ⟨f, p, hf, hcalls, hscale, hmobile, horient, ?_, ?_⟩
    · rw [hw (by norm_num [rect800, minInt64]) (by norm_num [rect800, maxInt64]),
        Int.ceil_eq_iff]
      norm_num [rect800]
    · rw [hh (by norm_num [rect800, minInt64]) (by norm_num [rect800, maxInt64]),
        Int.ceil_eq_iff]
      norm_num [rect800]

/-- C3: the action runs the layout-metrics query, the device-metrics override
and the pixel capture in that order and stops at the first failure.  When
step k fails the calls made are exactly steps 1 to k and the error returned
is the error of step k; when all succeed the three calls are made and nil
is returned; nil is returned if and only if all three steps succeeded. -/
theorem C3_steps_in_order_abort_on_first_failure {σ ε : Type} (B : Browser σ ε)
    (quality : Int) (res : Ptr) (s : σ) (m : Mem) :
    (∀ s1 e, B.getLayoutMetrics s = (s1, Except.error e) →
      (fullScreenshotAction quality res B s m).err = some e ∧
      callsOf quality res B s m = [Call.getLayoutMetrics]) ∧
    (∀ s1 cs s2 e, B.getLayoutMetrics s = (s1, Except.ok cs) →
      B.setDeviceMetricsOverride (overrideRequest cs) s1 = (s2, some e) →
      (fullScreenshotAction quality res B s m).err = some e ∧
      callsOf quality res B s m =
        [Call.getLayoutMetrics, Call.setDeviceMetricsOverride (overrideRequest cs)]) ∧
    (∀ s1 cs s2 s3 data e, B.getLayoutMetrics s = (s1, Except.ok cs) →
      B.setDeviceMetricsOverride (overrideRequest cs) s1 = (s2, none) →
      B.captureScreenshot (captureRequest quality cs) s2 = (s3, (data, some e)) →
      (fullScreenshotAction quality res B s m).err = some e ∧
      callsOf quality res B s m =
        [Call.getLayoutMetrics, Call.setDeviceMetricsOverride (overrideRequest cs),
         Call.captureScreenshot (captureRequest quality cs)]) ∧
    (∀ s1 cs s2 s3 data, B.getLayoutMetrics s = (s1, Except.ok cs) →
      B.setDeviceMetricsOverride (overrideRequest cs) s1 = (s2, none) →
      B.captureScreenshot (captureRequest quality cs) s2 = (s3, (data, none)) →
      (fullScreenshotAction quality res B s m).err = none ∧
      callsOf quality res B s m =
        [Call.getLayoutMetrics, Call.setDeviceMetricsOverride (overrideRequest cs),
         Call.captureScreenshot (captureRequest quality cs)]) ∧
    ((fullScreenshotAction quality res B s m).err = none ↔
      ∃ s1 cs s2 s3 data, B.getLayoutMetrics s = (s1, Except.ok cs) ∧
        B.setDeviceMetricsOverride (overrideRequest cs) s1 = (s2, none) ∧
        B.captureScreenshot (captureRequest quality cs) s2 = (s3, (data, none))) := by
  refine ⟨?_, ?_, ?_, ?_, ?_⟩
  · intro s1 e h1
    rw [callsOf, traced_layout_err B quality res s s1 [] m e h1,
      action_layout_err B quality res s s1 m e h1]
    simp
  · intro s1 cs s2 e h1 h2
    rw [callsOf, traced_override_err B quality res s s1 s2 [] m cs e h1 h2,
      action_override_err B quality res s s1 s2 m cs e h1 h2]
    simp
  · intro s1 cs s2 s3 data e h1 h2 h3
    rw [callsOf, traced_capture B quality res s s1 s2 s3 [] m cs data (some e) h1 h2 h3,
      action_capture B quality res s s1 s2 s3 m cs data (some e) h1 h2 h3]
    simp
  · intro s1 cs s2 s3 data h1 h2 h3
    rw [callsOf, traced_capture B quality res s s1 s2 s3 [] m cs data none h1 h2 h3,
      action_capture B quality res s s1 s2 s3 m cs data none h1 h2 h3]
    simp
  · constructor
    · intro h
      rcases h1 : B.getLayoutMetrics s with ⟨s1, e | cs⟩
      · rw [action_layout_err B quality res s s1 m e h1] at h
        simp at h
      · rcases h2 : B.setDeviceMetricsOverride (overrideRequest cs) s1 with ⟨s2, _ | e⟩
        · rcases h3 : B.captureScreenshot (captureRequest quality cs) s2 with ⟨s3, data, r⟩
          rw [action_capture B quality res s s1 s2 s3 m cs data r h1 h2 h3] at h
          simp at h
          subst h
          exact ⟨s1, cs, s2, s3, data, rfl, h2, h3⟩
        · rw [action_override_err B quality res s s1 s2 m cs e h1 h2] at h
          simp at h
    · rintro ⟨s1, cs, s2, s3, data, h1, h2, h3⟩
      rw [action_capture B quality res s s1 s2 s3 m cs data none h1 h2 h3]

/-- C3, on four scripted runs: the layout query fails, the override fails,
the capture fails, all three succeed. -/
theorem C3_steps_in_order_abort_on_first_failure_witness :
    ((fullScreenshotAction 90 0 scripted layoutFails zeroMem).err
        = some Err.NavigationError ∧
      callsOf 90 0 scripted layoutFails zeroMem = [Call.getLayoutMetrics]) ∧
    ((fullScreenshotAction 90 0 scripted overrideFails zeroMem).err
        = some Err.InvalidArgument ∧
      callsOf 90 0 scripted overrideFails zeroMem =
        [Call.getLayoutMetrics, Call.setDeviceMetricsOverride (overrideRequest rect1024)]) ∧
    ((fullScreenshotAction 90 0 scripted captureFails zeroMem).err
        = some Err.CaptureError ∧
      callsOf 90 0 scripted captureFails zeroMem =
        [Call.getLayoutMetrics, Call.setDeviceMetricsOverride (overrideRequest rect1024),
         Call.captureScreenshot (captureRequest 90 rect1024)]) ∧
    ((fullScreenshotAction 90 0 scripted page1024 zeroMem).err = none ∧
      callsOf 90 0 scripted page1024 zeroMem =
        [Call.getLayoutMetrics, Call.setDeviceMetricsOverride (overrideRequest rect1024),
         Call.captureScreenshot (captureRequest 90 rect1024)]) :=
  ⟨(C3_steps_in_order_abort_on_first_failure scripted 90 0 layoutFails zeroMem).1
      { layoutFails with sizes := [] } Err.NavigationError rfl,
   (C3_steps_in_order_abort_on_first_failure scripted 90 0 overrideFails zeroMem).2.1
      { overrideFails with sizes := [] } rect1024 { overrideFails with sizes := [] }
      Err.InvalidArgument rfl rfl,
   (C3_steps_in_order_abort_on_first_failure scripted 90 0 captureFails zeroMem).2.2.1
      { captureFails with sizes := [] } rect1024
      { captureFails with sizes := [], metrics := some (overrideRequest rect1024) }
      { captureFails with sizes := [], metrics := some (overrideRequest rect1024) }
      [] Err.CaptureError rfl rfl rfl,
   (C3_steps_in_order_abort_on_first_failure scripted 90 0 page1024 zeroMem).2.2.2.1
      { page1024 with sizes := [] } rect1024
      { page1024 with sizes := [], metrics := some (overrideRequest rect1024) }
      { page1024 with sizes := [], metrics := some (overrideRequest rect1024) }
      [137, 80, 78, 71] rfl rfl rfl⟩

/-- C4: in every invocation, whatever was logged before it, the action makes
one layout-metrics query of its own and, when that query and the override
succeed, requests the pixel capture with the quality of the caller unchanged
and with the clip whose x, y, width and height are the content-size values
of that query, at scale 1. -/
theorem C4_capture_clip_is_fresh_content_size {σ ε : Type} (B : Browser σ ε)
    (quality : Int) (res : Ptr) (s s1 s2 : σ) (t : List Call) (m : Mem) (cs : Rect)
    (h1 : B.getLayoutMetrics s = (s1, Except.ok cs))
    (h2 : B.setDeviceMetricsOverride (overrideRequest cs) s1 = (s2, none)) :
    (fullScreenshotAction quality res B.traced (s, t) m).state.2 =
      t ++ [Call.getLayoutMetrics,
            Call.setDeviceMetricsOverride (overrideRequest cs),
            Call.captureScreenshot
              { quality := quality,
                clip := some { x := cs.x, y := cs.y, width := cs.width,
                               height := cs.height, scale := 1 } }] := by
  rcases h3 : B.captureScreenshot (captureRequest quality cs) s2 with ⟨s3, data, r⟩
  rw [traced_capture B quality res s s1 s2 s3 t m cs data r h1 h2 h3]
  rfl

/-- C4, on a second invocation: the first invocation saw the content size
rect800, the page then changed, and the second invocation clips to rect1024,
the reply of its own query. -/
theorem C4_capture_clip_is_fresh_content_size_witness :
    (fullScreenshotAction 90 0 scripted twoPages zeroMem).state = afterFirst ∧
    (fullScreenshotAction 90 0 scripted.traced
        (afterFirst, callsOf 90 0 scripted twoPages zeroMem) zeroMem).state.2 =
      callsOf 90 0 scripted twoPages zeroMem ++
        [Call.getLayoutMetrics,
         Call.setDeviceMetricsOverride (overrideRequest rect1024),
         Call.captureScreenshot
           { quality := 90,
             clip := some { x := rect1024.x, y := rect1024.y, width := rect1024.width,
                            height := rect1024.height, scale := 1 } }] :=
  ⟨rfl,
   C4_capture_clip_is_fresh_content_size scripted 90 0 afterFirst
     { afterFirst with sizes := [] }
     { afterFirst with sizes := [], metrics := some (overrideRequest rect1024) }
     (callsOf 90 0 scripted twoPages zeroMem) zeroMem rect1024 rfl rfl⟩

/-- C5, refuted as stated: at quality 101, outside 0 to 100, on a browser
whose three commands succeed, the action returns nil (no InvalidArgument
error) and requests the pixel capture, with quality 101. -/
theorem C5_counterexample_quality_101 :
    (101 : Int) > 100 ∧
    (fullScreenshotAction 101 0 scripted page1024 zeroMem).err = none ∧
    (fullScreenshotAction 101 0 scripted page1024 zeroMem).err
      ≠ some Err.InvalidArgument ∧
    callsOf 101 0 scripted page1024 zeroMem =
      [Call.getLayoutMetrics, Call.setDeviceMetricsOverride (overrideRequest rect1024),
       Call.captureScreenshot
         { quality := 101,
           clip := some { x := rect1024.x, y := rect1024.y, width := rect1024.width,
                          height := rect1024.height, scale := 1 } }] := by
  refine ⟨by decide, rfl, ?_, rfl⟩
  rw [show (fullScreenshotAction 101 0 scripted page1024 zeroMem).err = none from rfl]
  simp

/-- C5, amended: the action does not check the quality.  For every quality,
inside 0 to 100 or not, once the layout query and the override succeed the
pixel capture is requested with that quality unchanged and the action
returns the error of that call; and every error the action returns is the
error one of its three calls returned, so the action produces no error of
its own. -/
theorem C5_quality_passed_unchecked {σ ε : Type} (B : Browser σ ε)
    (quality : Int) (res : Ptr) (s : σ) (m : Mem) :
    (∀ s1 cs s2, B.getLayoutMetrics s = (s1, Except.ok cs) →
      B.setDeviceMetricsOverride (overrideRequest cs) s1 = (s2, none) →
      callsOf quality res B s m =
        [Call.getLayoutMetrics, Call.setDeviceMetricsOverride (overrideRequest cs),
         Call.captureScreenshot
           { quality := quality,
             clip := some { x := cs.x, y := cs.y, width := cs.width,
                            height := cs.height, scale := 1 } }] ∧
      (fullScreenshotAction quality res B s m).err =
        (B.captureScreenshot (captureRequest quality cs) s2).2.2) ∧
    (∀ e, (fullScreenshotAction quality res B s m).err = some e →
      (∃ s1, B.getLayoutMetrics s = (s1, Except.error e)) ∨
      (∃ s1 cs s2, B.getLayoutMetrics s = (s1, Except.ok cs) ∧
        B.setDeviceMetricsOverride (overrideRequest cs) s1 = (s2, some e)) ∨
      (∃ s1 cs s2 s3 data, B.getLayoutMetrics s = (s1, Except.ok cs) ∧
        B.setDeviceMetricsOverride (overrideRequest cs) s1 = (s2, none) ∧
        B.captureScreenshot (captureRequest quality cs) s2 = (s3, (data, some e)))) := by
  constructor
  · intro s1 cs s2 h1 h2
    rcases h3 : B.captureScreenshot (captureRequest quality cs) s2 with ⟨s3, data, r⟩
    rw [callsOf, traced_capture B quality res s s1 s2 s3 [] m cs data r h1 h2 h3,
      action_capture B quality res s s1 s2 s3 m cs data r h1 h2 h3]
    exact ⟨rfl, rfl⟩
  · intro e he
    rcases h1 : B.getLayoutMetrics s with ⟨s1, e1 | cs⟩
    · rw [action_layout_err B quality res s s1 m e1 h1] at he
      simp at he
      subst he
      exact Or.inl ⟨s1, rfl⟩
    · rcases h2 : B.setDeviceMetricsOverride (overrideRequest cs) s1 with ⟨s2, _ | e2⟩
      · rcases h3 : B.captureScreenshot (captureRequest quality cs) s2 with ⟨s3, data, r⟩
        rw [action_capture B quality res s s1 s2 s3 m cs data r h1 h2 h3] at he
        simp at he
        subst he
        exact Or.inr (Or.inr ⟨s1, cs, s2, s3, data, rfl, h2, h3⟩)
      · rw [action_override_err B quality res s s1 s2 m cs e2 h1 h2] at he
        simp at he
        subst he
        exact Or.inr (Or.inl ⟨s1, cs, s2, rfl, h2⟩)

/-- C5, amended, at quality 101 and at quality -1 on a browser whose commands
succeed: the capture is requested with the quality as given. -/
theorem C5_quality_passed_unchecked_witness :
    (callsOf 101 0 scripted page1024 zeroMem =
        [Call.getLayoutMetrics, Call.setDeviceMetricsOverride (overrideRequest rect1024),
         Call.captureScreenshot
           { quality := 101,
             clip := some { x := rect1024.x, y := rect1024.y, width := rect1024.width,
                            height := rect1024.height, scale := 1 } }] ∧
      (fullScreenshotAction 101 0 scripted page1024 zeroMem).err = none) ∧
    (callsOf (-1) 0 scripted page1024 zeroMem =
        [Call.getLayoutMetrics, Call.setDeviceMetricsOverride (overrideRequest rect1024),
         Call.captureScreenshot
           { quality := -1,
             clip := some { x := rect1024.x, y := rect1024.y, width := rect1024.width,
                            height := rect1024.height, scale := 1 } }] ∧
      (fullScreenshotAction (-1) 0 scripted page1024 zeroMem).err = none) :=
  ⟨(C5_quality_passed_unchecked scripted 101 0 page1024 zeroMem).1
      { page1024 with sizes := [] } rect1024
      { page1024 with sizes := [], metrics := some (overrideRequest rect1024) } rfl rfl,
   (C5_quality_passed_unchecked scripted (-1) 0 page1024 zeroMem).1
      { page1024 with sizes := [] } rect1024
      { page1024 with sizes := [], metrics := some (overrideRequest rect1024) } rfl rfl⟩

/-- C6: on a browser whose pixel capture follows the contract of the Capture
Encoder (a clip of non-positive width or height is answered with
CaptureError), whenever the layout-metrics query reports a content size of
non-positive width or height the action fails rather than returning nil;
and once the override has succeeded, so that the capture is requested with
that region as its clip, the error the action returns is CaptureError. -/
theorem C6_nonpositive_region_fails_with_capture_error {σ ε : Type} (B : Browser σ ε)
    (captureError : ε) (quality : Int) (res : Ptr) (s s1 : σ) (m : Mem) (cs : Rect)
    (hspec : CaptureEncoderContract B captureError)
    (h1 : B.getLayoutMetrics s = (s1, Except.ok cs))
    (hreg : cs.width ≤ 0 ∨ cs.height ≤ 0) :
    (fullScreenshotAction quality res B s m).err ≠ none ∧
    (∀ s2, B.setDeviceMetricsOverride (overrideRequest cs) s1 = (s2, none) →
      (fullScreenshotAction quality res B s m).err = some captureError ∧
      callsOf quality res B s m =
        [Call.getLayoutMetrics, Call.setDeviceMetricsOverride (overrideRequest cs),
         Call.captureScreenshot
           { quality := quality,
             clip := some { x := cs.x, y := cs.y, width := cs.width,
                            height := cs.height, scale := 1 } }]) := by
  have hcap : ∀ a, (B.captureScreenshot (captureRequest quality cs) a).2.2
      = some captureError := by
    intro a
    exact hspec (captureRequest quality cs)
      { x := cs.x, y := cs.y, width := cs.width, height := cs.height, scale := 1 } a
      rfl hreg
  have hreached : ∀ s2, B.setDeviceMetricsOverride (overrideRequest cs) s1 = (s2, none) →
      (fullScreenshotAction quality res B s m).err = some captureError ∧
      callsOf quality res B s m =
        [Call.getLayoutMetrics, Call.setDeviceMetricsOverride (overrideRequest cs),
         Call.captureScreenshot (captureRequest quality cs)] := by
    intro s2 h2
    rcases h3 : B.captureScreenshot (captureRequest quality cs) s2 with ⟨s3, data, r⟩
    have hr : r = some captureError := by
      have := hcap s2
      rw [h3] at this
      exact this
    rw [callsOf, traced_capture B quality res s s1 s2 s3 [] m cs data r h1 h2 h3,
      action_capture B quality res s s1 s2 s3 m cs data r h1 h2 h3]
    exact ⟨hr, rfl⟩
  refine ⟨?_, hreached⟩
  rcases h2 : B.setDeviceMetricsOverride (overrideRequest cs) s1 with ⟨s2, _ | e⟩
  · rw [(hreached s2 h2).1]
    simp
  · rw [action_override_err B quality res s s1 s2 m cs e h1 h2]
    simp

/-- C6, on the scripted browser whose pixel capture rejects an empty clip: for
the content size of width 0 the action requests the capture with that
region and returns CaptureError. -/
theorem C6_nonpositive_region_fails_with_capture_error_witness :
    CaptureEncoderContract scriptedStrict Err.CaptureError ∧
    (rect0.width ≤ 0 ∨ rect0.height ≤ 0) ∧
    (fullScreenshotAction 90 0 scriptedStrict emptyPage zeroMem).err ≠ none ∧
    (fullScreenshotAction 90 0 scriptedStrict emptyPage zeroMem).err
      = some Err.CaptureError ∧
    callsOf 90 0 scriptedStrict emptyPage zeroMem =
      [Call.getLayoutMetrics, Call.setDeviceMetricsOverride (overrideRequest rect0),
       Call.captureScreenshot
         { quality := 90,
           clip := some { x := rect0.x, y := rect0.y, width := rect0.width,
                          height := rect0.height, scale := 1 } }] :=
  have hreg : rect0.width ≤ 0 ∨ rect0.height ≤ 0 := Or.inl (by simp [rect0])
  ⟨scriptedStrict_follows_contract, hreg,
   (C6_nonpositive_region_fails_with_capture_error scriptedStrict Err.CaptureError 90 0
      emptyPage { emptyPage with sizes := [] } zeroMem rect0
      scriptedStrict_follows_contract rfl hreg).1,
   (C6_nonpositive_region_fails_with_capture_error scriptedStrict Err.CaptureError 90 0
      emptyPage { emptyPage with sizes := [] } zeroMem rect0
      scriptedStrict_follows_contract rfl hreg).2
      { emptyPage with sizes := [], metrics := some (overrideRequest rect0) } rfl⟩

/-- C7, refuted as stated: there are executions that run no pipeline.  The
click program started with a command line that flag.Parse rejects ends with
status 2 inside flag.Parse; the screenshot program started with a command
line that parses but has no URL argument terminates fatally with Missing
URL.  Neither reaches chromedp.Run. -/
theorem C7_counterexample_no_pipeline :
    ((clickMain (stubRuntime none [137, 80, 78, 71] "") (Except.error 2) page1024).filter
        Effect.isRun).length = 0 ∧
    clickMain (stubRuntime none [137, 80, 78, 71] "") (Except.error 2) page1024 =
      [Effect.Exit 2] ∧
    ((screenshotMain (stubRuntime none [137, 80, 78, 71] "") (Except.ok noUrlFlags)
        page1024).filter Effect.isRun).length = 0 ∧
    screenshotMain (stubRuntime none [137, 80, 78, 71] "") (Except.ok noUrlFlags) page1024 =
      [Effect.Fatal (Sum.inl "Missing URL")] :=
  ⟨rfl, rfl, rfl, rfl⟩

/-- C7, amended: whenever flag.Parse returns and, for the screenshot program,
the URL argument is non-empty, the program runs exactly one pipeline and
consumes the output slot only after the run reported success.  The
screenshot program runs elementScreenshot and writes elementScreenshot.png
when the selector is non-empty, and otherwise runs fullScreenshot at
quality 90 and writes fullScreenshot.png; the buffer is written exactly when
the run returned no error.  The click program logs the value read exactly
when the run returned no error.  On a pipeline error either program does
nothing but terminate fatally with that error.  In the other executions
(flag.Parse ends the process, or the screenshot program has no URL) the
program ends before running any pipeline and reads no slot. -/
theorem C7_slot_consumed_only_after_success {σ ε : Type} (R : Runtime σ ε)
    (f : ScreenshotFlags) (g : ClickFlags) (s : σ) (hurl : flagArg f.args 0 ≠ "") :
    (f.selector ≠ "" →
      ConsumesAfterSuccess (screenshotMain R (Except.ok f) s)
        (elementScreenshot (flagArg f.args 0) f.selector 0)
        (R.Run (elementScreenshot (flagArg f.args 0) f.selector 0) s zeroMem)
        (Effect.WriteFile (R.Join f.outputDir "elementScreenshot.png")
          ((R.Run (elementScreenshot (flagArg f.args 0) f.selector 0) s zeroMem).mem.bytes 0)
          0o644)
        Effect.isWriteFile) ∧
    (f.selector = "" →
      ConsumesAfterSuccess (screenshotMain R (Except.ok f) s)
        (fullScreenshot (flagArg f.args 0) 90 0)
        (R.Run (fullScreenshot (flagArg f.args 0) 90 0) s zeroMem)
        (Effect.WriteFile (R.Join f.outputDir "fullScreenshot.png")
          ((R.Run (fullScreenshot (flagArg f.args 0) 90 0) s zeroMem).mem.bytes 0) 0o644)
        Effect.isWriteFile) ∧
    ConsumesAfterSuccess (clickMain R (Except.ok g) s) (clickTasks 0)
      (R.Run (clickTasks 0) s zeroMem)
      (Effect.Printf clickFormat ((R.Run (clickTasks 0) s zeroMem).mem.strings 0))
      Effect.isPrintf ∧
    (∀ f2 : ScreenshotFlags, flagArg f2.args 0 = "" →
      screenshotMain R (Except.ok f2) s = [Effect.Fatal (Sum.inl "Missing URL")]) ∧
    (∀ status : Nat,
      screenshotMain R (Except.error status) s = [Effect.Exit status] ∧
      clickMain R (Except.error status) s = [Effect.Exit status]) := by
  refine ⟨?_, ?_, ?_, ?_, fun _ => ⟨rfl, rfl⟩⟩
  · intro hsel
    unfold ConsumesAfterSuccess screenshotMain
    simp only [hurl, hsel, if_false, ne_eq, not_false_eq_true, if_true]
    cases hr : (R.Run (elementScreenshot (flagArg f.args 0) f.selector 0) s zeroMem).err with
    | some e =>
      simp [Effect.isRun, Effect.isWriteFile]
    | none =>
      cases hw : R.WriteFile (R.Join f.outputDir elementFileName)
          ((R.Run (elementScreenshot (flagArg f.args 0) f.selector 0) s zeroMem).mem.bytes 0)
          0o644 <;>
        simp [Effect.isRun, Effect.isWriteFile, elementFileName]
  · intro hsel
    unfold ConsumesAfterSuccess screenshotMain
    simp only [hurl, hsel, if_false, ne_eq, not_true_eq_false]
    cases hr : (R.Run (fullScreenshot (flagArg f.args 0) 90 0) s zeroMem).err with
    | some e =>
      simp [Effect.isRun, Effect.isWriteFile]
    | none =>
      cases hw : R.WriteFile (R.Join f.outputDir fullFileName)
          ((R.Run (fullScreenshot (flagArg f.args 0) 90 0) s zeroMem).mem.bytes 0) 0o644 <;>
        simp [Effect.isRun, Effect.isWriteFile, fullFileName]
  · unfold ConsumesAfterSuccess clickMain
    cases hr : (R.Run (clickTasks 0) s zeroMem).err with
    | some e => simp [hr, Effect.isRun, Effect.isPrintf]
    | none => simp [hr, Effect.isRun, Effect.isPrintf]
  · intro f2 h2
    simp [screenshotMain, h2]

/-- C7, amended, on two stub runtimes: after a successful run of the element
pipeline the buffer is written to elementScreenshot.png; after a failing run
of the full-page pipeline the program only terminates fatally, although the
run had already stored bytes in the slot. -/
theorem C7_slot_consumed_only_after_success_witness :
    flagArg elementFlags.args 0 ≠ "" ∧
    ConsumesAfterSuccess
      (screenshotMain (stubRuntime none [137, 80, 78, 71] "") (Except.ok elementFlags)
        page1024)
      (elementScreenshot "http://example/" "#main" 0)
      ((stubRuntime none [137, 80, 78, 71] "").Run
        (elementScreenshot "http://example/" "#main" 0) page1024 zeroMem)
      (Effect.WriteFile ((stubRuntime none [137, 80, 78, 71] "").Join "."
          "elementScreenshot.png")
        (((stubRuntime none [137, 80, 78, 71] "").Run
          (elementScreenshot "http://example/" "#main" 0) page1024 zeroMem).mem.bytes 0)
        0o644)
      Effect.isWriteFile ∧
    screenshotMain (stubRuntime (some Err.NavigationError) [137, 80] "")
        (Except.ok fullFlags) page1024 =
      [Effect.Run (fullScreenshot "http://example/" 90 0),
       Effect.Fatal (Sum.inr Err.NavigationError)] :=
  ⟨by decide,
   (C7_slot_consumed_only_after_success (stubRuntime none [137, 80, 78, 71] "")
      elementFlags { headless := true } page1024 (by decide)).1 (by decide),
   ((C7_slot_consumed_only_after_success (stubRuntime (some Err.NavigationError) [137, 80] "")
      fullFlags { headless := true } page1024 (by decide)).2.1 rfl).2.2.2.2
      Err.NavigationError rfl⟩

/-- C8: for every url, selector and slot, elementScreenshot is the pipeline
of exactly three actions navigate to the url, wait until the selector is
visible, capture that selector into the slot with the visibility
requirement; for every url, quality and slot, fullScreenshot is the
pipeline of exactly two actions navigate to the url, full-page capture
action.  In both the navigation comes first and the capture last. -/
theorem C8_pipeline_shapes {σ ε : Type} (urlstr sel : String) (quality : Int) (res : Ptr) :
    (elementScreenshot urlstr sel res : Tasks σ ε) =
      [Action.Navigate urlstr, Action.WaitVisible sel,
       Action.Screenshot sel res [QueryOption.NodeVisible]] ∧
    (elementScreenshot urlstr sel res : Tasks σ ε).length = 3 ∧
    (elementScreenshot urlstr sel res : Tasks σ ε)[0]? = some (Action.Navigate urlstr) ∧
    (elementScreenshot urlstr sel res : Tasks σ ε)[1]? = some (Action.WaitVisible sel) ∧
    (elementScreenshot urlstr sel res : Tasks σ ε)[2]? =
      some (Action.Screenshot sel res [QueryOption.NodeVisible]) ∧
    (fullScreenshot urlstr quality res : Tasks σ ε) =
      [Action.Navigate urlstr, Action.ActionFunc (fullScreenshotAction quality res)] ∧
    (fullScreenshot urlstr quality res : Tasks σ ε).length = 2 ∧
    (fullScreenshot urlstr quality res : Tasks σ ε)[0]? = some (Action.Navigate urlstr) ∧
    (fullScreenshot urlstr quality res : Tasks σ ε)[1]? =
      some (Action.ActionFunc (fullScreenshotAction quality res)) :=
  ⟨rfl, rfl, rfl, rfl, rfl, rfl, rfl, rfl, rfl⟩

/-- C9: take any observation of the emulated device metrics of the session
that a successful override sets to its parameters and that a pixel capture
leaves alone.  Once the layout query and the override have succeeded, the
state the action finishes in (whether the capture succeeds or fails) has
the overridden values: ceiled width and height, scale 1, not mobile,
portrait-primary at angle 0.  After the override the action makes the
capture call only: no clearing call and no second override. -/
theorem C9_override_not_reverted {σ ε : Type} (B : Browser σ ε)
    (metrics : σ → Option SetDeviceMetricsOverrideParams)
    (quality : Int) (res : Ptr) (s s1 s2 : σ) (m : Mem) (cs : Rect)
    (hset : ∀ p a b, B.setDeviceMetricsOverride p a = (b, none) → metrics b = some p)
    (hcap : ∀ c a, metrics (B.captureScreenshot c a).1 = metrics a)
    (h1 : B.getLayoutMetrics s = (s1, Except.ok cs))
    (h2 : B.setDeviceMetricsOverride (overrideRequest cs) s1 = (s2, none)) :
    metrics (fullScreenshotAction quality res B s m).state =
      some { width := int64OfFloat64 (mathCeil cs.width),
             height := int64OfFloat64 (mathCeil cs.height),
             deviceScaleFactor := 1,
             mobile := false,
             screenOrientation :=
               some { type := OrientationType.portraitPrimary, angle := 0 } } ∧
    callsOf quality res B s m =
      [Call.getLayoutMetrics, Call.setDeviceMetricsOverride (overrideRequest cs),
       Call.captureScreenshot (captureRequest quality cs)] ∧
    Call.clearDeviceMetricsOverride ∉ callsOf quality res B s m ∧
    (callsOf quality res B s m).filter Call.isOverride =
      [Call.setDeviceMetricsOverride (overrideRequest cs)] := by
  rcases h3 : B.captureScreenshot (captureRequest quality cs) s2 with ⟨s3, data, r⟩
  have hs3 : metrics s3 = metrics s2 := by
    have := hcap (captureRequest quality cs) s2
    rw [h3] at this
    exact this
  rw [callsOf, traced_capture B quality res s s1 s2 s3 [] m cs data r h1 h2 h3,
    action_capture B quality res s s1 s2 s3 m cs data r h1 h2 h3]
  refine ⟨?_, by simp, by simp, by simp [Call.isOverride]⟩
  show metrics s3 = _
  rw [hs3, hset _ _ _ h2]
  rfl

/-- C9, on the scripted browser, whose state records the emulated device
metrics: they are the overridden values after a run whose capture succeeds
and after a run whose capture fails. -/
theorem C9_override_not_reverted_witness :
    ((fullScreenshotAction 90 0 scripted page1024 zeroMem).err = none ∧
      (fullScreenshotAction 90 0 scripted page1024 zeroMem).state.metrics =
        some { width := int64OfFloat64 (mathCeil rect1024.width),
               height := int64OfFloat64 (mathCeil rect1024.height),
               deviceScaleFactor := 1,
               mobile := false,
               screenOrientation :=
                 some { type := OrientationType.portraitPrimary, angle := 0 } } ∧
      Call.clearDeviceMetricsOverride ∉ callsOf 90 0 scripted page1024 zeroMem) ∧
    ((fullScreenshotAction 90 0 scripted captureFails zeroMem).err
        = some Err.CaptureError ∧
      (fullScreenshotAction 90 0 scripted captureFails zeroMem).state.metrics =
        some { width := int64OfFloat64 (mathCeil rect1024.width),
               height := int64OfFloat64 (mathCeil rect1024.height),
               deviceScaleFactor := 1,
               mobile := false,
               screenOrientation :=
                 some { type := OrientationType.portraitPrimary, angle := 0 } } ∧
      Call.clearDeviceMetricsOverride ∉ callsOf 90 0 scripted captureFails zeroMem) :=
  ⟨⟨rfl,
    (C9_override_not_reverted scripted Script.metrics 90 0 page1024
      { page1024 with sizes := [] }
      { page1024 with sizes := [], metrics := some (overrideRequest rect1024) }
      zeroMem rect1024 scripted_override_sets_metrics scripted_capture_keeps_metrics
      rfl rfl).1,
    (C9_override_not_reverted scripted Script.metrics 90 0 page1024
      { page1024 with sizes := [] }
      { page1024 with sizes := [], metrics := some (overrideRequest rect1024) }
      zeroMem rect1024 scripted_override_sets_metrics scripted_capture_keeps_metrics
      rfl rfl).2.2.1⟩,
   ⟨rfl,
    (C9_override_not_reverted scripted Script.metrics 90 0 captureFails
      { captureFails with sizes := [] }
      { captureFails with sizes := [], metrics := some (overrideRequest rect1024) }
      zeroMem rect1024 scripted_override_sets_metrics scripted_capture_keeps_metrics
      rfl rfl).1,
    (C9_override_not_reverted scripted Script.metrics 90 0 captureFails
      { captureFails with sizes := [] }
      { captureFails with sizes := [], metrics := some (overrideRequest rect1024) }
      zeroMem rect1024 scripted_override_sets_metrics scripted_capture_keeps_metrics
      rfl rfl).2.2.1⟩⟩

/-- C10: when the layout-metrics query or the override fails, the action
leaves the memory, and so the buffer behind res, as it was.  When the pixel
capture is reached, the buffer behind res holds what that call returned,
also when the call returned an error, nothing else in memory changes, and
the action returns the error of that call; on full success the buffer is
the bytes the capture returned. -/
theorem C10_buffer_written_only_by_capture {σ ε : Type} (B : Browser σ ε)
    (quality : Int) (res : Ptr) (s : σ) (m : Mem) :
    (∀ s1 e, B.getLayoutMetrics s = (s1, Except.error e) →
      (fullScreenshotAction quality res B s m).mem = m) ∧
    (∀ s1 cs s2 e, B.getLayoutMetrics s = (s1, Except.ok cs) →
      B.setDeviceMetricsOverride (overrideRequest cs) s1 = (s2, some e) →
      (fullScreenshotAction quality res B s m).mem = m) ∧
    (∀ s1 cs s2 s3 data r, B.getLayoutMetrics s = (s1, Except.ok cs) →
      B.setDeviceMetricsOverride (overrideRequest cs) s1 = (s2, none) →
      B.captureScreenshot (captureRequest quality cs) s2 = (s3, (data, r)) →
      (fullScreenshotAction quality res B s m).mem.bytes res = data ∧
      (∀ p, p ≠ res → (fullScreenshotAction quality res B s m).mem.bytes p = m.bytes p) ∧
      (fullScreenshotAction quality res B s m).mem.strings = m.strings ∧
      (fullScreenshotAction quality res B s m).err = r) ∧
    (∀ s1 cs s2 s3 data, B.getLayoutMetrics s = (s1, Except.ok cs) →
      B.setDeviceMetricsOverride (overrideRequest cs) s1 = (s2, none) →
      B.captureScreenshot (captureRequest quality cs) s2 = (s3, (data, none)) →
      (fullScreenshotAction quality res B s m).err = none ∧
      (fullScreenshotAction quality res B s m).mem.bytes res = data) := by
  refine ⟨?_, ?_, ?_, ?_⟩
  · intro s1 e h1
    rw [action_layout_err B quality res s s1 m e h1]
  · intro s1 cs s2 e h1 h2
    rw [action_override_err B quality res s s1 s2 m cs e h1 h2]
  · intro s1 cs s2 s3 data r h1 h2 h3
    rw [action_capture B quality res s s1 s2 s3 m cs data r h1 h2 h3]
    refine ⟨by simp, ?_, rfl, rfl⟩
    intro p hp
    simp [Function.update, hp]
  · intro s1 cs s2 s3 data h1 h2 h3
    rw [action_capture B quality res s s1 s2 s3 m cs data none h1 h2 h3]
    simp

/-- C10, on four scripted runs over a buffer holding 1, 2, 3: it is kept
when the layout query fails and when the override fails, it is replaced by
the empty slice a failing capture returned, and it is replaced by the bytes
of a successful capture. -/
theorem C10_buffer_written_only_by_capture_witness :
    (fullScreenshotAction 90 0 scripted layoutFails usedMem).mem = usedMem ∧
    (fullScreenshotAction 90 0 scripted overrideFails usedMem).mem = usedMem ∧
    ((fullScreenshotAction 90 0 scripted captureFails usedMem).mem.bytes 0 = [] ∧
      (∀ p, p ≠ 0 →
        (fullScreenshotAction 90 0 scripted captureFails usedMem).mem.bytes p
          = usedMem.bytes p) ∧
      (fullScreenshotAction 90 0 scripted captureFails usedMem).mem.strings
        = usedMem.strings ∧
      (fullScreenshotAction 90 0 scripted captureFails usedMem).err
        = some Err.CaptureError) ∧
    ((fullScreenshotAction 90 0 scripted page1024 usedMem).err = none ∧
      (fullScreenshotAction 90 0 scripted page1024 usedMem).mem.bytes 0
        = [137, 80, 78, 71]) :=
  ⟨(C10_buffer_written_only_by_capture scripted 90 0 layoutFails usedMem).1
      { layoutFails with sizes := [] } Err.NavigationError rfl,
   (C10_buffer_written_only_by_capture scripted 90 0 overrideFails usedMem).2.1
      { overrideFails with sizes := [] } rect1024 { overrideFails with sizes := [] }
      Err.InvalidArgument rfl rfl,
   (C10_buffer_written_only_by_capture scripted 90 0 captureFails usedMem).2.2.1
      { captureFails with sizes := [] } rect1024
      { captureFails with sizes := [], metrics := some (overrideRequest rect1024) }
      { captureFails with sizes := [], metrics := some (overrideRequest rect1024) }
      [] (some Err.CaptureError) rfl rfl rfl,
   (C10_buffer_written_only_by_capture scripted 90 0 page1024 usedMem).2.2.2
      { page1024 with sizes := [] } rect1024
      { page1024 with sizes := [], metrics := some (overrideRequest rect1024) }
      { page1024 with sizes := [], metrics := some (overrideRequest rect1024) }
      [137, 80, 78, 71] rfl rfl rfl⟩

end Chromedp
